import Mathlib

/-!
# CRC-Error pipeline: shallow embedding and verification

This file embeds the core of the CRC-error detection pipeline
(src/activities/phys_if.py, ingr_total.py, store_history.py, delta.py,
incident.py and src/workflow.py) in Lean 4 and proves the spec's claims
about it.

Conventions of the embedding:
* Python dicts that are built by insertion are modelled as association
  lists; `dictSet` mirrors Python's "overwrite in place, append if new"
  and lookups take the latest write.
* Python ints are `Int`; the float `crc_percent` is modelled as `ℚ`
  (the code only ever divides two integers and compares against the
  decimal literals 0.01/0.02/0.05/0.10, all exact rationals).
* MongoDB history is a list of documents; `find` is a filter and
  `find_one(..., sort=[("timestamp", -1)])` picks a document of maximal
  timestamp among the matches (ties are unspecified in the store;
  the model keeps the earliest-inserted of the tied documents).
* Fallible stages are `Except String`; the Temporal workflow of
  src/workflow.py is a sequential chain of such stages with
  `RetryPolicy(maximum_attempts=1)`.
-/

namespace CrcError

/-- A history document as written by `store_history_activity`
(src/activities/store_history.py, the `doc` literal). -/
structure HistoryDoc where
  poll_id : String
  timestamp : Nat
  ip : String
  interface_id : String
  node : String
  dn : String
  adminSt : String
  crc_errors : Int
  pkts_cum : Int
deriving DecidableEq, Repr

/-- One entry of the `deltas[node][iface_id]` dict literal built by
`calculate_delta_activity` (src/activities/delta.py).  Nullable fields are
`Option`; `first_poll` is the value of `.get("first_poll", False)`. -/
structure DeltaRec where
  dn : String
  adminSt : String
  crc_t0 : Option Int
  crc_t1 : Int
  pkts_t0 : Option Int
  pkts_t1 : Int
  delta_crc : Option Int
  delta_pkts : Option Int
  crc_percent : Option ℚ
  first_poll : Bool
deriving DecidableEq, Repr

/-- The incident dict literal built by `evaluate_incident_activity`
(src/activities/incident.py). -/
structure Incident where
  interface_id : String
  node : String
  dn : String
  delta_crc : Int
  delta_pkts : Int
  crc_percent : ℚ
  severity : String
deriving DecidableEq, Repr

/-- `CRC_THRESHOLD = 0.01` (src/activities/incident.py). -/
def CRC_THRESHOLD : ℚ := 1/100

/-- The severity cascade of `evaluate_incident_activity`:
`> 0.10 → critical`, `elif > 0.05 → high`, `elif > 0.02 → medium`,
`else warning`. -/
def severityOf (cp : ℚ) : String :=
  if cp > 10/100 then "critical"
  else if cp > 5/100 then "high"
  else if cp > 2/100 then "medium"
  else "warning"

/-- Severity rank used by the spec's monotonicity property:
warning < medium < high < critical. -/
def sevRank : String → Nat
  | "medium" => 1
  | "high" => 2
  | "critical" => 3
  | _ => 0

/-- The per-record body of the loop in `evaluate_incident_activity`:
returns the incident appended to `incidents` for this record, or `none`
when one of the skip rules fires or the threshold is not exceeded. -/
def evalRecord (node iface_id : String) (d : DeltaRec) : Option Incident :=
  if d.first_poll then none
  else if d.adminSt ≠ "up" then none
  else
    match d.delta_crc, d.delta_pkts with
    | some delta_crc, some delta_pkts =>
        if delta_pkts ≤ 0 then none
        else
          match d.crc_percent with
          | some cp =>
              if cp > CRC_THRESHOLD then
                some { interface_id := iface_id, node := node, dn := d.dn,
                       delta_crc := delta_crc, delta_pkts := delta_pkts,
                       crc_percent := cp, severity := severityOf cp }
              else none
          | none => none
    | _, _ => none

/-- `evaluate_incident_activity`'s full loop over the nested
`node → iface → DeltaRec` batch (given as a list of triples in dict
iteration order): collects the opened incidents in order. -/
def evaluate_incident (deltas : List (String × String × DeltaRec)) : List Incident :=
  deltas.filterMap (fun e => evalRecord e.1 e.2.1 e.2.2)

/-- `collection.find({"ip": .., "poll_id": ..})` in
`calculate_delta_activity`: the documents of the current poll. -/
def currentPoll (coll : List HistoryDoc) (ip poll_id : String) : List HistoryDoc :=
  coll.filter (fun d => d.ip == ip && d.poll_id == poll_id)

/-- The candidate set of
`collection.find_one({"ip", "interface_id", "node", "poll_id": {"$ne": ..}})`:
same device, same interface, same node, any other poll. -/
def priorCandidates (coll : List HistoryDoc) (ip iface node poll_id : String) :
    List HistoryDoc :=
  coll.filter (fun d =>
    d.ip == ip && d.interface_id == iface && d.node == node && d.poll_id != poll_id)

/-- `sort=[("timestamp", -1)]` then take the first: a document of maximal
timestamp (on ties the store's choice is unspecified; the model keeps the
earliest-listed one). -/
def maxByTimestamp : List HistoryDoc → Option HistoryDoc
  | [] => none
  | d :: ds =>
      match maxByTimestamp ds with
      | none => some d
      | some m => if m.timestamp > d.timestamp then some m else some d

/-- The `previous = collection.find_one(..., sort=[("timestamp", -1)])`
lookup of `calculate_delta_activity`. -/
def mostRecentPrior (coll : List HistoryDoc) (ip iface node poll_id : String) :
    Option HistoryDoc :=
  maxByTimestamp (priorCandidates coll ip iface node poll_id)

/-- The body of the per-interface loop of `calculate_delta_activity`:
the `deltas[node][iface_id]` dict literal built for one current document,
in both the with-history and the first-poll branch. -/
def deltaEntry (coll : List HistoryDoc) (ip poll_id : String) (cur : HistoryDoc) :
    DeltaRec :=
  match mostRecentPrior coll ip cur.interface_id cur.node poll_id with
  | some previous =>
      let crc_t0 := previous.crc_errors
      let crc_t1 := cur.crc_errors
      let pkts_t0 := previous.pkts_cum
      let pkts_t1 := cur.pkts_cum
      let delta_crc := crc_t1 - crc_t0
      let delta_pkts := pkts_t1 - pkts_t0
      let crc_percent : ℚ :=
        if delta_pkts > 0 then (delta_crc : ℚ) / (delta_pkts : ℚ) else 0
      { dn := cur.dn, adminSt := cur.adminSt,
        crc_t0 := some crc_t0, crc_t1 := crc_t1,
        pkts_t0 := some pkts_t0, pkts_t1 := pkts_t1,
        delta_crc := some delta_crc, delta_pkts := some delta_pkts,
        crc_percent := some crc_percent, first_poll := false }
  | none =>
      { dn := cur.dn, adminSt := cur.adminSt,
        crc_t0 := none, crc_t1 := cur.crc_errors,
        pkts_t0 := none, pkts_t1 := cur.pkts_cum,
        delta_crc := none, delta_pkts := none,
        crc_percent := none, first_poll := true }

/-- `calculate_delta_activity`'s `deltas` output in dict iteration order:
the early return gives `{}` when the current poll is empty, otherwise one
`(node, iface_id, DeltaRec)` write per current document.  A later write to
the same `(node, iface_id)` overwrites an earlier one, which `dictLookup`
below accounts for. -/
def calculate_delta (coll : List HistoryDoc) (ip poll_id : String) :
    List (String × String × DeltaRec) :=
  if (currentPoll coll ip poll_id).isEmpty then []
  else (currentPoll coll ip poll_id).map
    (fun cur => (cur.node, cur.interface_id, deltaEntry coll ip poll_id cur))

/-- The value the nested `deltas` dict finally holds at
`deltas[node][iface_id]`: the last write with that key, if any. -/
def dictLookup (out : List (String × String × DeltaRec)) (node iface_id : String) :
    Option DeltaRec :=
  ((out.filter (fun e => e.1 == node && e.2.1 == iface_id)).getLast?).map
    (fun e => e.2.2)

/-- The interface record dict `{dn, adminSt, crc_errors}` built by
`get_phys_if_activity`; `pkts_cum` is `some` exactly when the key has been
added to the dict (it never is at phys_if time). -/
structure IfaceRec where
  dn : String
  adminSt : String
  crc_errors : Int
  pkts_cum : Option Int
deriving DecidableEq, Repr

/-- A value of the per-node dict.  After `get_phys_if_activity` every value
is an interface record; `get_ingr_total_activity`'s merge can also write a
bare integer (`result[key]["pkts_cum"] = 0`) into it. -/
inductive NodeEntry where
  | snap (r : IfaceRec)
  | num (n : Int)
deriving DecidableEq, Repr

/-- Python dict write `d[k] = v`: overwrite in place if the key exists,
append otherwise. -/
def dictSet {α : Type} (d : List (String × α)) (k : String) (v : α) :
    List (String × α) :=
  if d.any (fun p => p.1 == k) then
    d.map (fun p => if p.1 == k then (k, v) else p)
  else d ++ [(k, v)]

/-- Python dict read `d.get(k)` / `k in d` on a dict with unique keys. -/
def dictGet {α : Type} (d : List (String × α)) (k : String) : Option α :=
  (d.find? (fun p => p.1 == k)).map (fun p => p.2)

/-- The merge loop of `get_ingr_total_activity`
(src/activities/ingr_total.py lines 96-111): for every key of
`input.interfaces` it copies the value and then writes
`result[key]["pkts_cum"]`, taken from `ingr_data` when the key is in
`ingr_data`, else `0`.  `input.interfaces` is the *nested*
`node → iface_id → record` structure produced by `get_phys_if_activity`,
so the keys iterated here are node names and the values are whole
per-node dicts. -/
def mergeIngr (interfaces : List (String × List (String × NodeEntry)))
    (ingr_data : List (String × Int)) :
    List (String × List (String × NodeEntry)) :=
  interfaces.map (fun p =>
    match dictGet ingr_data p.1 with
    | some pkts => (p.1, dictSet p.2 "pkts_cum" (NodeEntry.num pkts))
    | none => (p.1, dictSet p.2 "pkts_cum" (NodeEntry.num 0)))

/-- Modelled from the spec (§4.1 Snapshot Merger), for comparison with
`mergeIngr`: "given (a) a mapping node → interfaceId → {dn, adminState,
crcErrors} and (b) a mapping interfaceId → packetsCumulative, produce the
per-key InterfaceSnapshot set.  Interface identifiers that appear in (a)
but not (b) get packetsCumulative = 0." -/
def mergeIngrSpec (interfaces : List (String × List (String × NodeEntry)))
    (ingr_data : List (String × Int)) :
    List (String × List (String × NodeEntry)) :=
  interfaces.map (fun p =>
    (p.1, p.2.map (fun q =>
      match q.2 with
      | NodeEntry.snap r =>
          match dictGet ingr_data q.1 with
          | some pkts => (q.1, NodeEntry.snap { r with pkts_cum := some pkts })
          | none => (q.1, NodeEntry.snap { r with pkts_cum := some 0 })
      | e => (q.1, e))))

/-! ## The workflow orchestrator (src/workflow.py)

Each activity is a fallible stage (`Except String`); the analytics fields
of the activity outputs are omitted because the workflow never reads them
(they are "NOT passed to next activity ... NOT included in final output").
`runWorkflow` additionally returns the list of stages it invoked, in
order, so that sequencing and at-most-once execution are provable. -/

/-- `RetryPolicy(maximum_attempts=1)` (src/workflow.py line 6): a stage is
attempted at most once. -/
def NO_RETRY_maximumAttempts : Nat := 1

structure WorkflowInput where
  ip : String
  protocol : String
deriving DecidableEq, Repr

structure LoginInput where
  ip : String
  protocol : String
deriving DecidableEq, Repr

structure LoginOutput where
  ip : String
  protocol : String
deriving DecidableEq, Repr

structure PhysIfInput where
  ip : String
  protocol : String
deriving DecidableEq, Repr

structure PhysIfOutput where
  interfaces : List (String × List (String × NodeEntry))
  ip : String
  protocol : String
deriving DecidableEq, Repr

structure IngrTotalInput where
  ip : String
  interfaces : List (String × List (String × NodeEntry))
  protocol : String
deriving DecidableEq, Repr

structure IngrTotalOutput where
  interfaces : List (String × List (String × NodeEntry))
  ip : String
  protocol : String
deriving DecidableEq, Repr

structure StoreHistoryInput where
  ip : String
  interfaces : List (String × List (String × NodeEntry))
  protocol : String
deriving DecidableEq, Repr

structure StoreHistoryOutput where
  poll_id : String
  ip : String
  protocol : String
  records_stored : Nat
deriving DecidableEq, Repr

structure DeltaInput where
  ip : String
  poll_id : String
  protocol : String
deriving DecidableEq, Repr

structure DeltaOutput where
  deltas : List (String × String × DeltaRec)
  ip : String
  protocol : String
deriving DecidableEq, Repr

structure IncidentInput where
  ip : String
  deltas : List (String × String × DeltaRec)
  protocol : String
deriving DecidableEq, Repr

structure IncidentOutput where
  incidents : List Incident
  ip : String
  protocol : String
deriving DecidableEq, Repr

/-- The final dict returned by `CrcErrorWorkflow.run`. -/
structure FinalResult where
  ip : String
  protocol : String
  poll_id : String
  total_interfaces : Nat
  deltas : List (String × String × DeltaRec)
  incidents : List Incident
  total_incidents : Nat
deriving DecidableEq, Repr

/-- `sum(len(ifaces) for ifaces in deltas.values())` on the nested dict:
the number of distinct `(node, iface_id)` keys of the batch. -/
def totalInterfacesOf (deltas : List (String × String × DeltaRec)) : Nat :=
  ((deltas.map (fun e => (e.1, e.2.1))).eraseDups).length

/-- `CrcErrorWorkflow.run` (src/workflow.py): six strictly sequential
stages, each under `NO_RETRY`; the first `.error` aborts the run and is
returned to the caller.  The second component records, in order, the
stages that were invoked. -/
def runWorkflow (input : WorkflowInput)
    (login_activity : LoginInput → Except String LoginOutput)
    (get_phys_if_activity : PhysIfInput → Except String PhysIfOutput)
    (get_ingr_total_activity : IngrTotalInput → Except String IngrTotalOutput)
    (store_history_activity : StoreHistoryInput → Except String StoreHistoryOutput)
    (calculate_delta_activity : DeltaInput → Except String DeltaOutput)
    (evaluate_incident_activity : IncidentInput → Except String IncidentOutput) :
    Except String FinalResult × List String :=
  match login_activity { ip := input.ip, protocol := input.protocol } with
  | .error e => (.error e, ["login_activity"])
  | .ok login_result =>
    match get_phys_if_activity
        { ip := login_result.ip, protocol := login_result.protocol } with
    | .error e => (.error e, ["login_activity", "get_phys_if_activity"])
    | .ok phys_if_result =>
      match get_ingr_total_activity
          { ip := phys_if_result.ip, interfaces := phys_if_result.interfaces,
            protocol := phys_if_result.protocol } with
      | .error e =>
          (.error e, ["login_activity", "get_phys_if_activity",
                      "get_ingr_total_activity"])
      | .ok ingr_total_result =>
        match store_history_activity
            { ip := ingr_total_result.ip,
              interfaces := ingr_total_result.interfaces,
              protocol := ingr_total_result.protocol } with
        | .error e =>
            (.error e, ["login_activity", "get_phys_if_activity",
                        "get_ingr_total_activity", "store_history_activity"])
        | .ok store_result =>
          match calculate_delta_activity
              { ip := store_result.ip, poll_id := store_result.poll_id,
                protocol := store_result.protocol } with
          | .error e =>
              (.error e, ["login_activity", "get_phys_if_activity",
                          "get_ingr_total_activity", "store_history_activity",
                          "calculate_delta_activity"])
          | .ok delta_result =>
            match evaluate_incident_activity
                { ip := delta_result.ip, deltas := delta_result.deltas,
                  protocol := delta_result.protocol } with
            | .error e =>
                (.error e, ["login_activity", "get_phys_if_activity",
                            "get_ingr_total_activity", "store_history_activity",
                            "calculate_delta_activity",
                            "evaluate_incident_activity"])
            | .ok incident_result =>
                (.ok { ip := incident_result.ip,
                       protocol := incident_result.protocol,
                       poll_id := store_result.poll_id,
                       total_interfaces := totalInterfacesOf delta_result.deltas,
                       deltas := delta_result.deltas,
                       incidents := incident_result.incidents,
                       total_incidents := incident_result.incidents.length },
                 ["login_activity", "get_phys_if_activity",
                  "get_ingr_total_activity", "store_history_activity",
                  "calculate_delta_activity", "evaluate_incident_activity"])

/-! ## Claims -/

/-- C1: for every `DeltaRecord` in the delta batch, the Incident Evaluator
opens an incident iff `firstPoll` is not true, `adminState = "up"`,
`deltaCrc` and `deltaPkts` are both non-null, `deltaPkts > 0` and
`crcPercent > 0.01`; in every other case (including `adminState ≠ "up"`
with arbitrarily large `crcPercent`) no incident is produced for that
record. -/
theorem C1_incident_rule (node iface_id : String) (d : DeltaRec) :
    (evalRecord node iface_id d).isSome ↔
      (d.first_poll = false ∧ d.adminSt = "up" ∧
       d.delta_crc ≠ none ∧ d.delta_pkts ≠ none ∧
       (∃ dp, d.delta_pkts = some dp ∧ 0 < dp) ∧
       (∃ cp, d.crc_percent = some cp ∧ CRC_THRESHOLD < cp)) := by
  rcases d with ⟨dn, adminSt, ct0, ct1, pt0, pt1, dc, dp, cp, fp⟩
  cases fp
  case true => simp [evalRecord]
  case false =>
    by_cases hadm : adminSt = "up"
    case neg => simp [evalRecord, hadm]
    case pos =>
      subst hadm
      cases dc with
      | none => simp [evalRecord]
      | some dcv =>
        cases dp with
        | none => simp [evalRecord]
        | some dpv =>
          cases cp with
          | none => simp [evalRecord]
          | some cpv =>
            by_cases hdp : dpv ≤ 0
            case pos =>
              simp [evalRecord, hdp]
              try omega
            case neg =>
              by_cases hcp : cpv > CRC_THRESHOLD
              case pos => simp [evalRecord, hdp, hcp]; omega
              case neg => simp [evalRecord, hdp, hcp]

/-- Witness for C1 at a concrete record: the evaluated record of the
spec's scenario 1 (`delta_pkts = 1000 > 0`, `crc_percent = 0.05 > 0.01`,
`adminSt = "up"`, not first poll) opens an incident. -/
theorem C1_incident_rule_witness :
    (evalRecord "node-103" "eth1/33"
        { dn := "topology/pod-1/node-103/sys/phys-[eth1/33]", adminSt := "up",
          crc_t0 := some 100, crc_t1 := 150,
          pkts_t0 := some 1000, pkts_t1 := 2000,
          delta_crc := some 50, delta_pkts := some 1000,
          crc_percent := some (5/100), first_poll := false }).isSome :=
  (C1_incident_rule "node-103" "eth1/33"
      { dn := "topology/pod-1/node-103/sys/phys-[eth1/33]", adminSt := "up",
        crc_t0 := some 100, crc_t1 := 150,
        pkts_t0 := some 1000, pkts_t1 := 2000,
        delta_crc := some 50, delta_pkts := some 1000,
        crc_percent := some (5/100), first_poll := false }).mpr
    ⟨rfl, rfl, by simp, by simp, ⟨1000, rfl, by norm_num⟩,
     ⟨5/100, rfl, by norm_num [CRC_THRESHOLD]⟩⟩

/-- C2: every opened incident's severity is assigned by first match in
descending order of `crcPercent` (`> 0.10 → critical`, `> 0.05 → high`,
`> 0.02 → medium`, otherwise `warning`), and severity is monotone in
`crcPercent` under the rank order warning < medium < high < critical. -/
theorem C2_severity_cascade_monotone :
    (∀ (node iface_id : String) (d : DeltaRec) (inc : Incident),
        evalRecord node iface_id d = some inc →
          inc.severity = severityOf inc.crc_percent) ∧
    (∀ cp : ℚ,
        (10/100 < cp → severityOf cp = "critical") ∧
        (cp ≤ 10/100 → 5/100 < cp → severityOf cp = "high") ∧
        (cp ≤ 5/100 → 2/100 < cp → severityOf cp = "medium") ∧
        (cp ≤ 2/100 → severityOf cp = "warning")) ∧
    (∀ a b : ℚ, b < a → sevRank (severityOf b) ≤ sevRank (severityOf a)) := by
  refine ⟨?_, ?_, ?_⟩
  · intro node iface_id d inc h
    rcases d with ⟨dn, adminSt, ct0, ct1, pt0, pt1, dc, dp, cp, fp⟩
    simp only [evalRecord] at h
    repeat' split at h
    all_goals first
      | exact Option.noConfusion h
      | (injection h with h; subst h; rfl)
  · intro cp
    unfold severityOf
    refine ⟨?_, ?_, ?_, ?_⟩ <;> intros <;> split_ifs <;> first | rfl | linarith
  · intro a b hlt
    unfold severityOf
    split_ifs <;> simp [sevRank] <;> linarith

/-- Witness for C2 at concrete inputs: a record with `crcPercent = 0.06`
opens an incident of severity `high`, and the rank of the severity at
`0.03` is at most the rank at `0.06`. -/
theorem C2_severity_witness :
    (evalRecord "node-1" "eth1/1"
        { dn := "d", adminSt := "up", crc_t0 := some 0, crc_t1 := 60,
          pkts_t0 := some 0, pkts_t1 := 1000, delta_crc := some 60,
          delta_pkts := some 1000, crc_percent := some (6/100),
          first_poll := false } =
      some { interface_id := "eth1/1", node := "node-1", dn := "d",
             delta_crc := 60, delta_pkts := 1000, crc_percent := 6/100,
             severity := severityOf (6/100) }) ∧
    severityOf (6/100) = "high" ∧
    sevRank (severityOf (3/100)) ≤ sevRank (severityOf (6/100)) := by
  refine ⟨by norm_num [evalRecord, CRC_THRESHOLD], ?_, ?_⟩
  · exact (C2_severity_cascade_monotone.2.1 (6/100)).2.1 (by norm_num) (by norm_num)
  · exact C2_severity_cascade_monotone.2.2 (6/100) (3/100) (by norm_num)

/-- C4: for every current snapshot whose key has a prior snapshot, the
`DeltaRecord`'s `crcPercent` is exactly `deltaCrc / deltaPkts` when
`deltaPkts > 0` and exactly `0.0` (not null) when `deltaPkts ≤ 0`. -/
theorem C4_crc_percent_definition (coll : List HistoryDoc) (ip poll_id : String)
    (cur previous : HistoryDoc)
    (h : mostRecentPrior coll ip cur.interface_id cur.node poll_id = some previous) :
    ∃ dc dp : ℤ,
      (deltaEntry coll ip poll_id cur).delta_crc = some dc ∧
      (deltaEntry coll ip poll_id cur).delta_pkts = some dp ∧
      (deltaEntry coll ip poll_id cur).crc_percent =
        some (if 0 < dp then (dc : ℚ) / (dp : ℚ) else 0) := by
  refine ⟨cur.crc_errors - previous.crc_errors, cur.pkts_cum - previous.pkts_cum,
    ?_, ?_, ?_⟩ <;> simp [deltaEntry, h]

/-- C5: for every current snapshot whose key has no prior snapshot, the
emitted `DeltaRecord` has `firstPoll = true`, `crcAtT0`, `pktsAtT0`,
`deltaCrc` and `deltaPkts` (and `crcPercent`) all null, and `crcAtT1`,
`pktsAtT1` taken from the current snapshot's counters. -/
theorem C5_first_poll_record (coll : List HistoryDoc) (ip poll_id : String)
    (cur : HistoryDoc)
    (h : mostRecentPrior coll ip cur.interface_id cur.node poll_id = none) :
    deltaEntry coll ip poll_id cur =
      { dn := cur.dn, adminSt := cur.adminSt,
        crc_t0 := none, crc_t1 := cur.crc_errors,
        pkts_t0 := none, pkts_t1 := cur.pkts_cum,
        delta_crc := none, delta_pkts := none,
        crc_percent := none, first_poll := true } := by
  simp [deltaEntry, h]

/-- C6: for every key with a prior snapshot, `deltaCrc` is exactly
`crcAtT1 - crcAtT0` and `deltaPkts` exactly `pktsAtT1 - pktsAtT0` as
straight integer subtraction over `ℤ` (so negative results from wrapped or
reset counters are emitted as-is; no wraparound special-casing). -/
theorem C6_straight_subtraction (coll : List HistoryDoc) (ip poll_id : String)
    (cur previous : HistoryDoc)
    (h : mostRecentPrior coll ip cur.interface_id cur.node poll_id = some previous) :
    (deltaEntry coll ip poll_id cur).crc_t0 = some previous.crc_errors ∧
    (deltaEntry coll ip poll_id cur).crc_t1 = cur.crc_errors ∧
    (deltaEntry coll ip poll_id cur).pkts_t0 = some previous.pkts_cum ∧
    (deltaEntry coll ip poll_id cur).pkts_t1 = cur.pkts_cum ∧
    (deltaEntry coll ip poll_id cur).delta_crc =
      some (cur.crc_errors - previous.crc_errors) ∧
    (deltaEntry coll ip poll_id cur).delta_pkts =
      some (cur.pkts_cum - previous.pkts_cum) := by
  refine ⟨?_, ?_, ?_, ?_, ?_, ?_⟩ <;> simp [deltaEntry, h]

/-- Sample history: poll `p0` of interface `eth1/33` on `node-103`
(the prior snapshot of the spec's end-to-end scenario 1). -/
def doc0 : HistoryDoc :=
  { poll_id := "p0", timestamp := 1, ip := "10.0.0.1",
    interface_id := "eth1/33", node := "node-103",
    dn := "topology/pod-1/node-103/sys/phys-[eth1/33]", adminSt := "up",
    crc_errors := 100, pkts_cum := 1000 }

/-- Sample history: poll `p1` of the same key (the current snapshot of the
spec's end-to-end scenario 1). -/
def doc1 : HistoryDoc :=
  { poll_id := "p1", timestamp := 2, ip := "10.0.0.1",
    interface_id := "eth1/33", node := "node-103",
    dn := "topology/pod-1/node-103/sys/phys-[eth1/33]", adminSt := "up",
    crc_errors := 150, pkts_cum := 2000 }

/-- Witness for C4 at the concrete two-poll history `[doc0, doc1]`. -/
theorem C4_crc_percent_witness :
    ∃ dc dp : ℤ,
      (deltaEntry [doc0, doc1] "10.0.0.1" "p1" doc1).delta_crc = some dc ∧
      (deltaEntry [doc0, doc1] "10.0.0.1" "p1" doc1).delta_pkts = some dp ∧
      (deltaEntry [doc0, doc1] "10.0.0.1" "p1" doc1).crc_percent =
        some (if 0 < dp then (dc : ℚ) / (dp : ℚ) else 0) :=
  C4_crc_percent_definition [doc0, doc1] "10.0.0.1" "p1" doc1 doc0 (by decide)

/-- Witness for C5: with only `doc1` in the store there is no prior
snapshot and the first-poll record is emitted. -/
theorem C5_first_poll_witness :
    deltaEntry [doc1] "10.0.0.1" "p1" doc1 =
      { dn := doc1.dn, adminSt := doc1.adminSt,
        crc_t0 := none, crc_t1 := doc1.crc_errors,
        pkts_t0 := none, pkts_t1 := doc1.pkts_cum,
        delta_crc := none, delta_pkts := none,
        crc_percent := none, first_poll := true } :=
  C5_first_poll_record [doc1] "10.0.0.1" "p1" doc1 (by decide)

/-- Witness for C6 at the concrete two-poll history `[doc0, doc1]`. -/
theorem C6_straight_subtraction_witness :
    (deltaEntry [doc0, doc1] "10.0.0.1" "p1" doc1).crc_t0 = some doc0.crc_errors ∧
    (deltaEntry [doc0, doc1] "10.0.0.1" "p1" doc1).crc_t1 = doc1.crc_errors ∧
    (deltaEntry [doc0, doc1] "10.0.0.1" "p1" doc1).pkts_t0 = some doc0.pkts_cum ∧
    (deltaEntry [doc0, doc1] "10.0.0.1" "p1" doc1).pkts_t1 = doc1.pkts_cum ∧
    (deltaEntry [doc0, doc1] "10.0.0.1" "p1" doc1).delta_crc =
      some (doc1.crc_errors - doc0.crc_errors) ∧
    (deltaEntry [doc0, doc1] "10.0.0.1" "p1" doc1).delta_pkts =
      some (doc1.pkts_cum - doc0.pkts_cum) :=
  C6_straight_subtraction [doc0, doc1] "10.0.0.1" "p1" doc1 doc0 (by decide)

/-- C7: end-to-end boundary case — current `{crc=150, pkts=2000}`, prior
`{crc=100, pkts=1000}`, `adminState = "up"` yields `deltaCrc = 50`,
`deltaPkts = 1000`, `crcPercent = 0.05`, and the Incident Evaluator
opens one incident of severity `medium` (0.05 is not > 0.05 but is
> 0.02). -/
theorem C7_end_to_end_scenario :
    calculate_delta [doc0, doc1] "10.0.0.1" "p1" =
      [("node-103", "eth1/33",
        { dn := "topology/pod-1/node-103/sys/phys-[eth1/33]", adminSt := "up",
          crc_t0 := some 100, crc_t1 := 150,
          pkts_t0 := some 1000, pkts_t1 := 2000,
          delta_crc := some 50, delta_pkts := some 1000,
          crc_percent := some (5/100), first_poll := false })] ∧
    evaluate_incident (calculate_delta [doc0, doc1] "10.0.0.1" "p1") =
      [{ interface_id := "eth1/33", node := "node-103",
         dn := "topology/pod-1/node-103/sys/phys-[eth1/33]",
         delta_crc := 50, delta_pkts := 1000, crc_percent := 5/100,
         severity := "medium" }] := by
  have h : calculate_delta [doc0, doc1] "10.0.0.1" "p1" =
      [("node-103", "eth1/33",
        { dn := "topology/pod-1/node-103/sys/phys-[eth1/33]", adminSt := "up",
          crc_t0 := some 100, crc_t1 := 150,
          pkts_t0 := some 1000, pkts_t1 := 2000,
          delta_crc := some 50, delta_pkts := some 1000,
          crc_percent := some (5/100), first_poll := false })] := by
    norm_num [calculate_delta, currentPoll, deltaEntry, mostRecentPrior,
      priorCandidates, maxByTimestamp, doc0, doc1, List.filter_cons,
      List.filter_nil, List.isEmpty, List.map_cons, List.map_nil,
      show ("p0" : String) ≠ "p1" by decide]
  refine ⟨h, ?_⟩
  rw [h]
  norm_num [evaluate_incident, evalRecord, CRC_THRESHOLD, severityOf,
    List.filterMap_cons, List.filterMap_nil]

/-- C10: when the history store holds no record for the current poll
identifier, the Delta Engine raises no error and returns an empty delta
map, and the Incident Evaluator on that empty map returns an empty
incident list (zero interfaces, zero incidents). -/
theorem C10_empty_poll_graceful (coll : List HistoryDoc) (ip poll_id : String)
    (h : ∀ d ∈ coll, d.poll_id ≠ poll_id) :
    calculate_delta coll ip poll_id = [] ∧
    evaluate_incident (calculate_delta coll ip poll_id) = [] := by
  have hcp : currentPoll coll ip poll_id = [] := by
    refine List.filter_eq_nil_iff.mpr ?_
    intro d hd
    simp [h d hd]
  refine ⟨?_, ?_⟩ <;> simp [calculate_delta, hcp, evaluate_incident]

/-- Witness for C10: a store holding only poll `p0` data, queried for
poll `p9`. -/
theorem C10_empty_poll_witness :
    calculate_delta [doc0] "10.0.0.1" "p9" = [] ∧
    evaluate_incident (calculate_delta [doc0] "10.0.0.1" "p9") = [] :=
  C10_empty_poll_graceful [doc0] "10.0.0.1" "p9" (by decide)

/-- Helper: when the documents of a batch have pairwise distinct
`(node, interface_id)` keys, the nested dict built from one write per
document holds, at each document's key, exactly that document's value. -/
lemma dictLookup_map_eq (f : HistoryDoc → DeltaRec) (L : List HistoryDoc)
    (hpw : L.Pairwise (fun a b => a.node ≠ b.node ∨ a.interface_id ≠ b.interface_id))
    (cur : HistoryDoc) (hmem : cur ∈ L) :
    dictLookup (L.map (fun c => (c.node, c.interface_id, f c)))
        cur.node cur.interface_id = some (f cur) := by
  induction L with
  | nil => cases hmem
  | cons a t ih =>
    rcases List.pairwise_cons.mp hpw with ⟨ha, hpt⟩
    rcases List.mem_cons.mp hmem with rfl | hmem'
    · have hrest :
          (t.map (fun c => (c.node, c.interface_id, f c))).filter
            (fun e => e.1 == cur.node && e.2.1 == cur.interface_id) = [] := by
        refine List.filter_eq_nil_iff.mpr ?_
        intro e he
        rcases List.mem_map.mp he with ⟨b, hb, rfl⟩
        rcases ha b hb with hne | hne <;> simp [hne.symm]
      simp [dictLookup, List.filter_cons, hrest]
    · have hhead :
          ((a.node, a.interface_id, f a).1 == cur.node &&
            (a.node, a.interface_id, f a).2.1 == cur.interface_id) = false := by
        rcases ha cur hmem' with hne | hne <;> simp [hne]
      have := ih hpt hmem'
      simpa [dictLookup, List.filter_cons, hhead] using this

/-- C8: two current snapshots sharing an `interfaceId` but on different
nodes yield two independent `DeltaRecord` entries in the batch, one under
each node and at distinct keys, neither overwriting the other. -/
theorem C8_same_iface_different_nodes (coll : List HistoryDoc) (ip poll_id : String)
    (cur1 cur2 : HistoryDoc)
    (h1 : cur1 ∈ currentPoll coll ip poll_id)
    (h2 : cur2 ∈ currentPoll coll ip poll_id)
    (hiface : cur1.interface_id = cur2.interface_id)
    (hnode : cur1.node ≠ cur2.node)
    (huniq : (currentPoll coll ip poll_id).Pairwise
      (fun a b => a.node ≠ b.node ∨ a.interface_id ≠ b.interface_id)) :
    (cur1.node, cur1.interface_id) ≠ (cur2.node, cur2.interface_id) ∧
    dictLookup (calculate_delta coll ip poll_id) cur1.node cur1.interface_id
      = some (deltaEntry coll ip poll_id cur1) ∧
    dictLookup (calculate_delta coll ip poll_id) cur2.node cur2.interface_id
      = some (deltaEntry coll ip poll_id cur2) := by
  have hne : ¬(currentPoll coll ip poll_id).isEmpty := by
    cases hL : currentPoll coll ip poll_id with
    | nil => rw [hL] at h1; cases h1
    | cons a t => simp
  refine ⟨?_, ?_, ?_⟩
  · intro hpair
    exact hnode (congrArg Prod.fst hpair)
  · rw [calculate_delta, if_neg hne]
    exact dictLookup_map_eq _ _ huniq cur1 h1
  · rw [calculate_delta, if_neg hne]
    exact dictLookup_map_eq _ _ huniq cur2 h2

/-- Sample current-poll document: interface `eth1/33` on `node-201`,
sharing its `interfaceId` with `doc1`'s key on `node-103`. -/
def doc2 : HistoryDoc :=
  { poll_id := "p1", timestamp := 2, ip := "10.0.0.1",
    interface_id := "eth1/33", node := "node-201",
    dn := "topology/pod-2/node-201/sys/phys-[eth1/33]", adminSt := "up",
    crc_errors := 3, pkts_cum := 500 }

/-- Witness for C8: `doc1` and `doc2` share `interfaceId = "eth1/33"` on
different nodes in poll `p1`. -/
theorem C8_same_iface_witness :
    ("node-103", "eth1/33") ≠ (("node-201", "eth1/33") : String × String) ∧
    dictLookup (calculate_delta [doc1, doc2] "10.0.0.1" "p1") "node-103" "eth1/33"
      = some (deltaEntry [doc1, doc2] "10.0.0.1" "p1" doc1) ∧
    dictLookup (calculate_delta [doc1, doc2] "10.0.0.1" "p1") "node-201" "eth1/33"
      = some (deltaEntry [doc1, doc2] "10.0.0.1" "p1" doc2) :=
  C8_same_iface_different_nodes [doc1, doc2] "10.0.0.1" "p1" doc1 doc2
    (by decide) (by decide) (by decide) (by decide) (by decide)

/-- C3: the merge of `get_ingr_total_activity` does not do what the claim
says.  `input.interfaces` is the nested `node → interfaceId → record`
structure of `get_phys_if_activity`, but the merge loop treats its keys as
interface identifiers: with feed (a) holding interface `eth1/33` on
`node-103` and feed (b) holding `eth1/33 → 5000`, the code looks up the
node name `"node-103"` in feed (b), never gives the interface record any
`packetsCumulative`, and instead writes a spurious `"pkts_cum" → 0` entry
at node level — while the spec's merge (`mergeIngrSpec`) gives the
interface record `packetsCumulative = 5000`. -/
theorem C3_merge_level_mismatch :
    mergeIngr
        [("node-103",
          [("eth1/33",
            NodeEntry.snap
              { dn := "topology/pod-1/node-103/sys/phys-[eth1/33]",
                adminSt := "up", crc_errors := 7, pkts_cum := none })])]
        [("eth1/33", 5000)] =
      [("node-103",
        [("eth1/33",
          NodeEntry.snap
            { dn := "topology/pod-1/node-103/sys/phys-[eth1/33]",
              adminSt := "up", crc_errors := 7, pkts_cum := none }),
         ("pkts_cum", NodeEntry.num 0)])] ∧
    mergeIngrSpec
        [("node-103",
          [("eth1/33",
            NodeEntry.snap
              { dn := "topology/pod-1/node-103/sys/phys-[eth1/33]",
                adminSt := "up", crc_errors := 7, pkts_cum := none })])]
        [("eth1/33", 5000)] =
      [("node-103",
        [("eth1/33",
          NodeEntry.snap
            { dn := "topology/pod-1/node-103/sys/phys-[eth1/33]",
              adminSt := "up", crc_errors := 7, pkts_cum := some 5000 })])] := by
  decide

/-- C9: the orchestrator (`CrcErrorWorkflow.run`) runs its six stages
strictly in sequence under `RetryPolicy(maximum_attempts=1)`: in every run
each stage is invoked at most once, a run with no failure invokes the
stages exactly in their fixed order, and the first failing stage ends the
run — the failure is surfaced to the caller and no later stage is
invoked. -/
theorem C9_sequential_no_retry :
    NO_RETRY_maximumAttempts = 1 ∧
    (∀ input la pa ia sa da ea,
      (runWorkflow input la pa ia sa da ea).2.Nodup) ∧
    (∀ input la pa ia sa da ea e,
      la { ip := input.ip, protocol := input.protocol } = .error e →
      runWorkflow input la pa ia sa da ea = (.error e, ["login_activity"])) ∧
    (∀ input la pa ia sa da ea lr e,
      la { ip := input.ip, protocol := input.protocol } = .ok lr →
      pa { ip := lr.ip, protocol := lr.protocol } = .error e →
      runWorkflow input la pa ia sa da ea =
        (.error e, ["login_activity", "get_phys_if_activity"])) ∧
    (∀ input la pa ia sa da ea lr pr e,
      la { ip := input.ip, protocol := input.protocol } = .ok lr →
      pa { ip := lr.ip, protocol := lr.protocol } = .ok pr →
      ia { ip := pr.ip, interfaces := pr.interfaces, protocol := pr.protocol }
        = .error e →
      runWorkflow input la pa ia sa da ea =
        (.error e, ["login_activity", "get_phys_if_activity",
                    "get_ingr_total_activity"])) ∧
    (∀ input la pa ia sa da ea lr pr ir e,
      la { ip := input.ip, protocol := input.protocol } = .ok lr →
      pa { ip := lr.ip, protocol := lr.protocol } = .ok pr →
      ia { ip := pr.ip, interfaces := pr.interfaces, protocol := pr.protocol }
        = .ok ir →
      sa { ip := ir.ip, interfaces := ir.interfaces, protocol := ir.protocol }
        = .error e →
      runWorkflow input la pa ia sa da ea =
        (.error e, ["login_activity", "get_phys_if_activity",
                    "get_ingr_total_activity", "store_history_activity"])) ∧
    (∀ input la pa ia sa da ea lr pr ir sr e,
      la { ip := input.ip, protocol := input.protocol } = .ok lr →
      pa { ip := lr.ip, protocol := lr.protocol } = .ok pr →
      ia { ip := pr.ip, interfaces := pr.interfaces, protocol := pr.protocol }
        = .ok ir →
      sa { ip := ir.ip, interfaces := ir.interfaces, protocol := ir.protocol }
        = .ok sr →
      da { ip := sr.ip, poll_id := sr.poll_id, protocol := sr.protocol }
        = .error e →
      runWorkflow input la pa ia sa da ea =
        (.error e, ["login_activity", "get_phys_if_activity",
                    "get_ingr_total_activity", "store_history_activity",
                    "calculate_delta_activity"])) ∧
    (∀ input la pa ia sa da ea lr pr ir sr dr e,
      la { ip := input.ip, protocol := input.protocol } = .ok lr →
      pa { ip := lr.ip, protocol := lr.protocol } = .ok pr →
      ia { ip := pr.ip, interfaces := pr.interfaces, protocol := pr.protocol }
        = .ok ir →
      sa { ip := ir.ip, interfaces := ir.interfaces, protocol := ir.protocol }
        = .ok sr →
      da { ip := sr.ip, poll_id := sr.poll_id, protocol := sr.protocol }
        = .ok dr →
      ea { ip := dr.ip, deltas := dr.deltas, protocol := dr.protocol }
        = .error e →
      runWorkflow input la pa ia sa da ea =
        (.error e, ["login_activity", "get_phys_if_activity",
                    "get_ingr_total_activity", "store_history_activity",
                    "calculate_delta_activity", "evaluate_incident_activity"])) ∧
    (∀ input la pa ia sa da ea,
      (runWorkflow input la pa ia sa da ea).1.isOk →
      (runWorkflow input la pa ia sa da ea).2 =
        ["login_activity", "get_phys_if_activity", "get_ingr_total_activity",
         "store_history_activity", "calculate_delta_activity",
         "evaluate_incident_activity"]) := by
  refine ⟨rfl, ?_, ?_, ?_, ?_, ?_, ?_, ?_, ?_⟩
  · intro input la pa ia sa da ea
    cases h1 : la { ip := input.ip, protocol := input.protocol } with
    | error e => simp [runWorkflow, h1]
    | ok lr =>
      cases h2 : pa { ip := lr.ip, protocol := lr.protocol } with
      | error e => simp [runWorkflow, h1, h2]
      | ok pr =>
        cases h3 : ia ⟨pr.ip, pr.interfaces, pr.protocol⟩ with
        | error e => simp [runWorkflow, h1, h2, h3]
        | ok ir =>
          cases h4 : sa ⟨ir.ip, ir.interfaces, ir.protocol⟩ with
          | error e => simp [runWorkflow, h1, h2, h3, h4]
          | ok sr =>
            cases h5 : da ⟨sr.ip, sr.poll_id, sr.protocol⟩ with
            | error e => simp [runWorkflow, h1, h2, h3, h4, h5]
            | ok dr =>
              cases h6 : ea ⟨dr.ip, dr.deltas, dr.protocol⟩ with
              | error e => simp [runWorkflow, h1, h2, h3, h4, h5, h6]
              | ok er => simp [runWorkflow, h1, h2, h3, h4, h5, h6]
  · intro input la pa ia sa da ea e h1
    simp [runWorkflow, h1]
  · intro input la pa ia sa da ea lr e h1 h2
    simp [runWorkflow, h1, h2]
  · intro input la pa ia sa da ea lr pr e h1 h2 h3
    simp [runWorkflow, h1, h2, h3]
  · intro input la pa ia sa da ea lr pr ir e h1 h2 h3 h4
    simp [runWorkflow, h1, h2, h3, h4]
  · intro input la pa ia sa da ea lr pr ir sr e h1 h2 h3 h4 h5
    simp [runWorkflow, h1, h2, h3, h4, h5]
  · intro input la pa ia sa da ea lr pr ir sr dr e h1 h2 h3 h4 h5 h6
    simp [runWorkflow, h1, h2, h3, h4, h5, h6]
  · intro input la pa ia sa da ea hok
    revert hok
    cases h1 : la { ip := input.ip, protocol := input.protocol } with
    | error e => simp [runWorkflow, h1, Except.isOk, Except.toBool]
    | ok lr =>
      cases h2 : pa { ip := lr.ip, protocol := lr.protocol } with
      | error e => simp [runWorkflow, h1, h2, Except.isOk, Except.toBool]
      | ok pr =>
        cases h3 : ia ⟨pr.ip, pr.interfaces, pr.protocol⟩ with
        | error e => simp [runWorkflow, h1, h2, h3, Except.isOk, Except.toBool]
        | ok ir =>
          cases h4 : sa ⟨ir.ip, ir.interfaces, ir.protocol⟩ with
          | error e =>
              simp [runWorkflow, h1, h2, h3, h4, Except.isOk, Except.toBool]
          | ok sr =>
            cases h5 : da ⟨sr.ip, sr.poll_id, sr.protocol⟩ with
            | error e =>
                simp [runWorkflow, h1, h2, h3, h4, h5, Except.isOk,
                  Except.toBool]
            | ok dr =>
              cases h6 : ea ⟨dr.ip, dr.deltas, dr.protocol⟩ with
              | error e =>
                  simp [runWorkflow, h1, h2, h3, h4, h5, h6, Except.isOk,
                    Except.toBool]
              | ok er =>
                  simp [runWorkflow, h1, h2, h3, h4, h5, h6]

/-- Witness for C9 at concrete stage functions: a run whose store stage
fails surfaces exactly that failure with only the first four stages
invoked. -/
theorem C9_sequential_no_retry_witness :
    runWorkflow ⟨"10.0.0.1", "https"⟩
      (fun _ => .ok ⟨"10.0.0.1", "https"⟩)
      (fun _ => .ok ⟨[], "10.0.0.1", "https"⟩)
      (fun _ => .ok ⟨[], "10.0.0.1", "https"⟩)
      (fun _ => .error "mongo down")
      (fun _ => .ok ⟨[], "10.0.0.1", "https"⟩)
      (fun _ => .ok ⟨[], "10.0.0.1", "https"⟩) =
      (.error "mongo down",
       ["login_activity", "get_phys_if_activity", "get_ingr_total_activity",
        "store_history_activity"]) :=
  C9_sequential_no_retry.2.2.2.2.2.1 ⟨"10.0.0.1", "https"⟩
    (fun _ => .ok ⟨"10.0.0.1", "https"⟩)
    (fun _ => .ok ⟨[], "10.0.0.1", "https"⟩)
    (fun _ => .ok ⟨[], "10.0.0.1", "https"⟩)
    (fun _ => .error "mongo down")
    (fun _ => .ok ⟨[], "10.0.0.1", "https"⟩)
    (fun _ => .ok ⟨[], "10.0.0.1", "https"⟩)
    ⟨"10.0.0.1", "https"⟩ ⟨[], "10.0.0.1", "https"⟩ ⟨[], "10.0.0.1", "https"⟩
    "mongo down" rfl rfl rfl rfl

end CrcError
